import Mathlib

/-!
Verification of the scoring / round-clock core of `src/src/App.jsx`
(react-three-basketball).

The embedded code:

* the zustand store (`useStore`, lines 22-30): `score`, `addPoint`,
  `resetScore`, `timeLeft`, `gameOver`;
* the Hoop trigger handlers (lines 130-150): `onCollideBegin` sets the
  `scorable` ref from the sign of the entering body's vertical velocity,
  `onCollideEnd` scores when `scorable` is set and the exit vertical
  velocity is below `1`, then always clears `scorable`;
* the per-frame round clock (`Scene.useFrame`, lines 195-201): sets
  `gameOver` once `clock.elapsedTime` exceeds `ROUND_DURATION + 1`,
  otherwise (while the game is running) recomputes
  `timeLeft = ROUND_DURATION - parseInt(clock.elapsedTime)`.

Velocity samples come from the physics engine as JS numbers and may be
`NaN`; we model such a sample as `JSNum` (`nan` or a rational value),
with JS comparison semantics (`NaN < c` is `false`).  The clock value
`clock.elapsedTime` is modelled as a rational; `parseInt` applied to a
(non-exponential-notation) JS number truncates toward zero, modelled by
`jsParseInt`.
-/

/-- A vertical-velocity sample delivered by the physics engine: a JS
number that is either `NaN` or an ordinary (rational-modelled) value. -/
inductive JSNum where
  | nan : JSNum
  | val : ℚ → JSNum
deriving DecidableEq, Repr

/-- JS `<` between a velocity sample and a constant: `NaN < c` is
`false`, an ordinary value compares numerically. -/
def jsLt : JSNum → ℚ → Bool
  | JSNum.nan, _ => false
  | JSNum.val x, c => decide (x < c)

/-- `ROUND_DURATION` constant of `App.jsx` line 20. -/
def ROUND_DURATION : ℤ := 10

/-- JS `parseInt` on a numeric argument (for the magnitudes the round
clock produces, i.e. values whose string form is plain decimal):
truncation toward zero. -/
def jsParseInt (q : ℚ) : ℤ := if q < 0 then ⌈q⌉ else ⌊q⌋

/-- The mutable state of the program relevant to scoring and the round
clock: the zustand store fields `score`, `timeLeft`, `gameOver`
(`useStore`, lines 22-30) together with the Hoop's `scorable` ref
(line 100). -/
structure GameState where
  score : ℕ
  timeLeft : ℤ
  gameOver : Bool
  scorable : Bool
deriving DecidableEq, Repr

/-- Initial state: `score: 0`, `timeLeft: ROUND_DURATION`,
`gameOver: false` (store initialisers) and `scorable = useRef(false)`. -/
def initialState : GameState :=
  { score := 0, timeLeft := ROUND_DURATION, gameOver := false, scorable := false }

/-- `addPoint` of the store (line 24): `score + 1`. -/
def addPoint (score : ℕ) : ℕ := score + 1

/-- `resetScore` of the store (line 25): sets the score to `0`. -/
def resetScore (_score : ℕ) : ℕ := 0

/-- The Hoop trigger's `onCollideBegin` handler (lines 134-141): if the
entering body's vertical velocity is `< 0` set `scorable` to `true`,
otherwise set it to `false`. -/
def onCollideBegin (vy : JSNum) (s : GameState) : GameState :=
  if jsLt vy 0 then { s with scorable := true } else { s with scorable := false }

/-- The Hoop trigger's `onCollideEnd` handler (lines 142-149): if
`scorable` is set and the exiting body's vertical velocity is `< 1`,
call `addPoint` and recolor the body (the one-shot mark-as-scored side
effect, returned here as the `Bool` component); in every case reset
`scorable` to `false` afterwards. -/
def onCollideEnd (vy : JSNum) (s : GameState) : GameState × Bool :=
  if s.scorable && jsLt vy 1 then
    ({ s with score := addPoint s.score, scorable := false }, true)
  else
    ({ s with scorable := false }, false)

/-- The round-clock body of `Scene.useFrame` (lines 195-201): while the
game is running, set `gameOver` once `elapsedTime > ROUND_DURATION + 1`,
otherwise recompute `timeLeft = ROUND_DURATION - parseInt(elapsedTime)`;
once `gameOver` holds the tick does nothing. -/
def useFrameTick (elapsedTime : ℚ) (s : GameState) : GameState :=
  if !s.gameOver && decide (elapsedTime > (ROUND_DURATION : ℚ) + 1) then
    { s with gameOver := true }
  else if !s.gameOver then
    { s with timeLeft := ROUND_DURATION - jsParseInt elapsedTime }
  else
    s

/-- Run the round clock over a sequence of per-frame elapsed-time
samples. -/
def runTicks (es : List ℚ) (s : GameState) : GameState :=
  es.foldl (fun t e => useFrameTick e t) s

/-! ## Claims -/

/-- C1: a score event (the `addPoint` call together with the one-shot
mark-as-scored recolor, returned as the `Bool` output) is emitted on
region-exit iff the body was armed at entry (entry vertical velocity
`< 0`) and the exit vertical velocity is strictly less than `1`; the
score then grows by exactly one; `scorable` is reset to `false` after
every exit, so a repeated exit cannot fire again. -/
theorem exit_scores_iff (ve vx vx2 : JSNum) (s : GameState) :
    (onCollideEnd vx (onCollideBegin ve s)).2 = (jsLt ve 0 && jsLt vx 1) ∧
    (onCollideEnd vx (onCollideBegin ve s)).1.score
      = s.score + (if jsLt ve 0 && jsLt vx 1 then 1 else 0) ∧
    (onCollideEnd vx (onCollideBegin ve s)).1.scorable = false ∧
    (onCollideEnd vx2 (onCollideEnd vx (onCollideBegin ve s)).1).2 = false := by
  cases h1 : jsLt ve 0 <;> cases h2 : jsLt vx 1 <;>
    simp [onCollideBegin, onCollideEnd, addPoint, h1, h2]

/-- C2: region-entry sets the armed flag to exactly the code's
`velocity.y < 0` test (true on a strictly negative sample, false
otherwise, NaN included), and an entry whose velocity is not strictly
negative followed by any exit produces no score event and leaves the
score unchanged. -/
theorem entry_arms_iff_negative (vy vx : JSNum) (s : GameState) :
    (onCollideBegin vy s).scorable = jsLt vy 0 ∧
    (jsLt vy 0 = false →
      (onCollideEnd vx (onCollideBegin vy s)).2 = false ∧
      (onCollideEnd vx (onCollideBegin vy s)).1.score = s.score) := by
  cases h : jsLt vy 0 <;> simp [onCollideBegin, onCollideEnd, h]

/-- C2 witness: the spec scenario entry with vertical velocity `+2`
(not armed) and exit with vertical velocity `-1`: no score event, score
unchanged. -/
theorem entry_arms_iff_negative_witness :
    (onCollideEnd (JSNum.val (-1)) (onCollideBegin (JSNum.val 2) initialState)).2 = false ∧
    (onCollideEnd (JSNum.val (-1)) (onCollideBegin (JSNum.val 2) initialState)).1.score
      = initialState.score :=
  (entry_arms_iff_negative (JSNum.val 2) (JSNum.val (-1)) initialState).2 (by decide)

/-- C3 counterexample: at `elapsedTime = 11` (exactly
`ROUND_DURATION + 1`) the tick is not caught by the game-over branch
(`11 > 11` is false) and sets `timeLeft = 10 - parseInt(11) = -1`; the
claimed formula `max(0, roundDuration - floor(elapsedSeconds))` gives
`0`, so the implementation does not clamp. -/
theorem timeLeft_clamp_cex :
    (useFrameTick 11 initialState).timeLeft ≠ max 0 (ROUND_DURATION - ⌊(11 : ℚ)⌋) := by
  have hfl : ⌊(11 : ℚ)⌋ = 11 := by norm_num
  norm_num [useFrameTick, initialState, jsParseInt, ROUND_DURATION, hfl]

/-- C3 (amended): while the game is running and for
`0 ≤ elapsedSeconds < ROUND_DURATION + 1`, the tick sets
`timeLeft = ROUND_DURATION - ⌊elapsedSeconds⌋`, which coincides with
`max(0, ROUND_DURATION - ⌊elapsedSeconds⌋)` and is non-negative; outside
that range the code does not clamp. -/
theorem timeLeft_formula (e : ℚ) (s : GameState) (hg : s.gameOver = false)
    (h0 : 0 ≤ e) (h1 : e < (ROUND_DURATION : ℚ) + 1) :
    (useFrameTick e s).timeLeft = max 0 (ROUND_DURATION - ⌊e⌋) ∧
    0 ≤ (useFrameTick e s).timeLeft := by
  have hfl : ⌊e⌋ ≤ ROUND_DURATION := by
    have h2 : ⌊e⌋ < ROUND_DURATION + 1 := Int.floor_lt.mpr (by push_cast; linarith)
    exact Int.lt_add_one_iff.mp h2
  have hpi : jsParseInt e = ⌊e⌋ := by simp [jsParseInt, not_lt.mpr h0]
  have hnot : ¬ (e > (ROUND_DURATION : ℚ) + 1) := not_lt.mpr (le_of_lt h1)
  have hmax : max 0 (ROUND_DURATION - ⌊e⌋) = ROUND_DURATION - ⌊e⌋ :=
    max_eq_right (sub_nonneg.mpr hfl)
  simp [useFrameTick, hg, hnot, hpi, hmax, sub_nonneg.mpr hfl]

/-- C3 witness: at the spec scenario `elapsedSeconds = 10.9` from the
initial state, the tick yields `timeLeft = 0` (non-negative, matching
the clamped formula). -/
theorem timeLeft_formula_witness :
    (useFrameTick (109 / 10) initialState).timeLeft
      = max 0 (ROUND_DURATION - ⌊(109 / 10 : ℚ)⌋) ∧
    0 ≤ (useFrameTick (109 / 10) initialState).timeLeft :=
  timeLeft_formula (109 / 10) initialState rfl (by norm_num)
    (by norm_num [ROUND_DURATION])

/-- One tick's effect on `gameOver`: it is set exactly when it already
held or the sample exceeds `ROUND_DURATION + 1`; it is never cleared. -/
lemma useFrameTick_gameOver_eq (e : ℚ) (s : GameState) :
    (useFrameTick e s).gameOver
      = (s.gameOver || decide (e > (ROUND_DURATION : ℚ) + 1)) := by
  cases hg : s.gameOver <;> cases he : decide (e > (ROUND_DURATION : ℚ) + 1) <;>
    simp [useFrameTick, hg, he]

/-- C4: over any tick sequence, `gameOver` holds after the run iff it
held before or some sample exceeds `ROUND_DURATION + 1` — so it stays
false while every sample is `≤ ROUND_DURATION + 1`, becomes true at the
first exceeding sample, and, once true, a further tick keeps it true
whatever elapsed value is passed (terminal state). -/
theorem gameOver_first_exceed_terminal (es : List ℚ) (e : ℚ) (s : GameState) :
    ((runTicks es s).gameOver
      = (s.gameOver || es.any fun x => decide (x > (ROUND_DURATION : ℚ) + 1))) ∧
    (s.gameOver = true → (useFrameTick e s).gameOver = true) := by
  constructor
  · induction es generalizing s with
    | nil => simp [runTicks]
    | cons x xs ih =>
      have hx := ih (useFrameTick x s)
      simp only [runTicks, List.foldl_cons, List.any_cons] at hx ⊢
      rw [hx, useFrameTick_gameOver_eq, Bool.or_assoc]
  · intro h
    rw [useFrameTick_gameOver_eq, h, Bool.true_or]

/-- C4 witness: the spec scenario — ticks at 10.9 then 11.1 from the
initial state set `gameOver`, and one further tick (elapsed 12) on a
game-over state keeps it true. -/
theorem gameOver_first_exceed_terminal_witness :
    ((runTicks [109 / 10, 111 / 10] initialState).gameOver
      = (initialState.gameOver
          || [(109 : ℚ) / 10, 111 / 10].any fun x =>
                decide (x > (ROUND_DURATION : ℚ) + 1))) ∧
    (useFrameTick 12
        { score := 0, timeLeft := 0, gameOver := true, scorable := false }).gameOver
      = true :=
  ⟨(gameOver_first_exceed_terminal [109 / 10, 111 / 10] 12 initialState).1,
   (gameOver_first_exceed_terminal [] 12
      { score := 0, timeLeft := 0, gameOver := true, scorable := false }).2 rfl⟩

/-- C5 counterexample: the exit handler never reads `gameOver`; in a
state with `gameOver = true` and an armed region, an exit with vertical
velocity `0.5` still increments the score (3 becomes 4), contradicting
the claim that the score is unchanged while `gameOver` holds. -/
theorem score_after_gameOver_cex :
    ({ score := 3, timeLeft := 0, gameOver := true, scorable := true } : GameState).gameOver
      = true ∧
    (onCollideEnd (JSNum.val (1 / 2))
        { score := 3, timeLeft := 0, gameOver := true, scorable := true }).1.score
      ≠ ({ score := 3, timeLeft := 0, gameOver := true, scorable := true } : GameState).score := by
  refine ⟨rfl, ?_⟩
  norm_num [onCollideEnd, jsLt, addPoint]

/-- C5 (amended): the exit handler does not consult `gameOver`; while
`gameOver` holds, a qualifying exit (armed region, exit vertical
velocity `< 1`) still increments the score by one — suppressing scoring
after the round ends is left to UI policy outside this code. -/
theorem exit_scores_despite_gameOver (v : JSNum) (s : GameState)
    (hover : s.gameOver = true) (harm : s.scorable = true)
    (hv : jsLt v 1 = true) :
    (onCollideEnd v s).1.score = s.score + 1 ∧
    (onCollideEnd v s).1.gameOver = true := by
  simp [onCollideEnd, harm, hv, addPoint, hover]

/-- C5 witness: the concrete game-over, armed state of the
counterexample scores on exit velocity `0.5`. -/
theorem exit_scores_despite_gameOver_witness :
    (onCollideEnd (JSNum.val (1 / 2))
        { score := 3, timeLeft := 0, gameOver := true, scorable := true }).1.score
      = ({ score := 3, timeLeft := 0, gameOver := true, scorable := true } : GameState).score
          + 1 ∧
    (onCollideEnd (JSNum.val (1 / 2))
        { score := 3, timeLeft := 0, gameOver := true, scorable := true }).1.gameOver
      = true :=
  exit_scores_despite_gameOver (JSNum.val (1 / 2))
    { score := 3, timeLeft := 0, gameOver := true, scorable := true }
    rfl rfl (by norm_num [jsLt])

/-- C6: starting from score zero, `addPoint` applied `N` times yields
`N`; every single call adds exactly one (hence strictly increases the
value); `resetScore` yields `0` whatever the prior value. -/
theorem scoreTracker_spec (N prior s : ℕ) :
    addPoint^[N] 0 = N ∧ addPoint s = s + 1 ∧ s < addPoint s ∧
    resetScore prior = 0 := by
  refine ⟨?_, rfl, Nat.lt_succ_self s, rfl⟩
  induction N with
  | zero => rfl
  | succ n ih => rw [Function.iterate_succ_apply', ih]; rfl

/-- C7: an exit event arriving while the region is unarmed (in
particular an exit with no preceding entry at all, since `scorable`
starts `false`) emits no score event, leaves the score unchanged, and
leaves `scorable` clear; the handler is a total function, so no
exception can arise. -/
theorem unmatched_exit_noop (vx : JSNum) (s : GameState)
    (h : s.scorable = false) :
    (onCollideEnd vx s).2 = false ∧
    (onCollideEnd vx s).1.score = s.score ∧
    (onCollideEnd vx s).1.scorable = false := by
  simp [onCollideEnd, h]

/-- C7 witness: an exit (velocity `0.5`) straight from the initial
state, where no entry has ever occurred, is a silent no-op. -/
theorem unmatched_exit_noop_witness :
    (onCollideEnd (JSNum.val (1 / 2)) initialState).2 = false ∧
    (onCollideEnd (JSNum.val (1 / 2)) initialState).1.score = initialState.score ∧
    (onCollideEnd (JSNum.val (1 / 2)) initialState).1.scorable = false :=
  unmatched_exit_noop (JSNum.val (1 / 2)) initialState rfl

/-- C8: a NaN velocity sample compares as not-less-than any threshold,
so a NaN entry leaves the region unarmed, a NaN exit fails the
qualifying test and leaves the score unchanged, and an entry-NaN/any
exit pair never scores; the handlers are total, so no crash occurs. -/
theorem nan_velocity_never_scores (s : GameState) (vx : JSNum) :
    (onCollideBegin JSNum.nan s).scorable = false ∧
    (onCollideEnd JSNum.nan s).2 = false ∧
    (onCollideEnd JSNum.nan s).1.score = s.score ∧
    (onCollideEnd vx (onCollideBegin JSNum.nan s)).2 = false := by
  simp [onCollideBegin, onCollideEnd, jsLt]

/-- C9: an entry event overwrites the armed flag unconditionally
(last-entry-wins): the flag after any entry equals the entry velocity's
sign test alone, so two states with arbitrary (in particular already
armed) prior flags agree after the same entry. -/
theorem entry_overwrites_armed (vy : JSNum) (t u : GameState) :
    (onCollideBegin vy t).scorable = jsLt vy 0 ∧
    (onCollideBegin vy t).scorable = (onCollideBegin vy u).scorable := by
  cases h : jsLt vy 0 <;> simp [onCollideBegin, h]

/-- C10: once `gameOver` holds, a round-clock tick returns the state
unchanged — in particular `timeLeft` stays frozen at the value it held
when `gameOver` became true, for every later elapsed-time input. -/
theorem gameOver_freezes_timeLeft (e : ℚ) (s : GameState)
    (h : s.gameOver = true) : useFrameTick e s = s := by
  simp [useFrameTick, h]

/-- C10 witness: a tick at elapsed time `99` on a game-over state with
`timeLeft = 0` changes nothing. -/
theorem gameOver_freezes_timeLeft_witness :
    useFrameTick 99 { score := 5, timeLeft := 0, gameOver := true, scorable := false }
      = { score := 5, timeLeft := 0, gameOver := true, scorable := false } :=
  gameOver_freezes_timeLeft 99
    { score := 5, timeLeft := 0, gameOver := true, scorable := false } rfl
